import Mathlib

/-!
Shallow embedding of `src/automation/generate_readme.py` (README generator
automation): folder discovery, text-file classification, file collection with
size caps and truncation, prompt assembly with a total length cap, the
generator client with its exception handling, and the per-project dispatch of
`main`.  Filesystem and network effects are made explicit: directory layouts,
file attributes (size, decoded text, mime type, suffix) and the generation
service are inputs to the Lean functions.
-/

namespace ReadmeGen

/-! ### Constants (module-level constants of the script) -/

def IGNORE_FOLDERS : List String := [".git", "automation", "__pycache__", ".stopautomation"]

def IGNORE_FILES : List String := ["README.md", ".env"]

def STOP_AUTOMATION_FOLDER : String := ".stopautomation"

/-- Constant `MAX_FILE_SIZE = 100000` (bytes, per-file size cap checked on `st_size`). -/
def MAX_FILE_SIZE : Nat := 100000

/-- Constant `MAX_CONTENT_LENGTH = 30000` (characters, used both as the per-file decoded
content cap and as the total prompt length cap). -/
def MAX_CONTENT_LENGTH : Nat := 30000

/-! ### Paths

A `pathlib.Path` is modelled by its `parts` (list of path segments);
`Path.name` is the last segment. -/

/-- Model of `pathlib.Path.name`: the final path component (empty for an empty parts list). -/
def pathName (parts : List String) : String := parts.getLast?.getD ""

/-- Python `str.lower()` restricted to ASCII, per character (the suffixes and
extension lists involved are all ASCII). -/
def strLower (s : String) : String := String.mk (s.data.map Char.toLower)

/-- Python slicing `s[:n]`: the first `n` characters (code points) of `s`. -/
def strTake (s : String) (n : Nat) : String := String.mk (s.data.take n)

/-- Model of `should_ignore(path)`.  The `path.is_dir()` filesystem query is passed in
as the boolean `isDir`. -/
def should_ignore (parts : List String) (isDir : Bool) : Bool :=
  if pathName parts ∈ IGNORE_FOLDERS || pathName parts ∈ IGNORE_FILES then
    true
  else if isDir && parts.any (fun part => part ∈ IGNORE_FOLDERS) then
    true
  else
    false

/-! ### Folder discovery

The root directory is modelled by its own path parts plus its immediate
entries as returned by `os.scandir`, in scandir order.  A child directory
carries the names (with kinds) of the entries directly inside it, which is
what `(child / STOP_AUTOMATION_FOLDER).exists()` consults. -/

inductive EntryKind where
  | file
  | dir
  deriving DecidableEq, Repr

/-- An immediate child directory of the root, with the named entries directly
inside it. -/
structure ChildDir where
  name : String
  entries : List (String × EntryKind)
  deriving DecidableEq, Repr

/-- An entry yielded by `os.scandir(root_dir)`: a plain file or a directory. -/
inductive RootEntry where
  | file (name : String)
  | dir (c : ChildDir)
  deriving DecidableEq, Repr

/-- The root directory: its path parts and its scandir entries. -/
structure RootDir where
  rootParts : List String
  entries : List RootEntry
  deriving DecidableEq, Repr

/-- Model of `(pathlib.Path(item.path) / STOP_AUTOMATION_FOLDER).exists()`: true when an
entry of that name exists directly inside the child, whatever its kind. -/
def stopMarkerExists (c : ChildDir) : Bool :=
  c.entries.any (fun e => e.1 = STOP_AUTOMATION_FOLDER)

/-- The loop body of `find_project_folders` for one scandir `item`: the path
it contributes to the result, or `none` when the item is a plain file, is
ignored, or holds the stop marker. -/
def considerEntry (rootParts : List String) : RootEntry → Option (List String)
  | .file _ => none
  | .dir c =>
    if !(should_ignore (rootParts ++ [c.name]) true) then
      if !(stopMarkerExists c) then
        some (rootParts ++ [c.name])
      else
        none
    else
      none

/-- Model of `find_project_folders(root_dir)`: immediate child directories that are not
ignored and hold no `.stopautomation` entry, as full paths. -/
def find_project_folders (root : RootDir) : List (List String) :=
  root.entries.filterMap (considerEntry root.rootParts)

/-! ### Text-file classification -/

def text_extensions : List String :=
  [".py", ".js", ".ts", ".html", ".css", ".md", ".txt", ".json", ".xml",
   ".yaml", ".yml", ".sh", ".bat", ".ps1"]

/-- Model of `is_text_file(file_path)`.  `mimetypes.guess_type` and `Path.suffix` are
filesystem/library queries, passed in as `mimeType` and `suffix`. -/
def is_text_file (mimeType : Option String) (suffix : String) : Bool :=
  match mimeType with
  | some m => if "text/".data <+: m.data then true else strLower suffix ∈ text_extensions
  | none => strLower suffix ∈ text_extensions

/-! ### File collection -/

/-- The truncation marker appended to over-long decoded content. -/
def truncationMarker : String := "\n... (content truncated due to length)"

/-- A regular file met during the walk: its name, `st_size`, decoded text
(`none` when opening/decoding raises), declared mime type and suffix. -/
structure SrcFile where
  name : String
  size : Nat
  decoded : Option String
  mimeType : Option String
  suffix : String
  deriving DecidableEq, Repr

/-- One `(root, dirs, files)` triple yielded by `os.walk`. -/
structure WalkDir where
  parts : List String
  files : List SrcFile
  deriving DecidableEq, Repr

/-- The body of the inner `for file in files` loop of `read_project_files`:
the entry contributed by one file, or `none` when it is skipped. -/
def processFile (dirParts : List String) (f : SrcFile) : Option (List String × String) :=
  if !(should_ignore (dirParts ++ [f.name]) false) && is_text_file f.mimeType f.suffix then
    if f.size > MAX_FILE_SIZE then
      none
    else
      match f.decoded with
      | none => none
      | some content =>
        if content.length > MAX_CONTENT_LENGTH then
          some (dirParts ++ [f.name], strTake content MAX_CONTENT_LENGTH ++ truncationMarker)
        else
          some (dirParts ++ [f.name], content)
  else
    none

/-- `read_project_files(project_folder)`: walk the folder (the walk result is
the input), skip ignored directories, and collect the surviving files in
order. -/
def read_project_files (walk : List WalkDir) : List (List String × String) :=
  walk.flatMap fun d =>
    if should_ignore d.parts true then
      []
    else
      d.files.filterMap (processFile d.parts)

/-! ### Prompt assembly (`generate_readme_with_gemini`)

`base_prompt` reproduces the triple-quoted Python literal character for
character, including the eight-space indentation carried by every
continuation line (also the visually blank ones) and the trailing
eight spaces before the closing quotes. -/

def base_prompt : String :=
  "Please analyze the following project files and generate a comprehensive README.md file.\n        The README should be in Markdown format with inline HTML for interactive elements.\n        \n        Required sections:\n        1. Project Overview - A clear description of what the project does\n        2. Features - List of main features and capabilities\n        3. Installation - How to install and set up the project\n        4. Usage - How to use the project with examples\n        5. Example Code Snippets - If applicable, show some code examples\n        6. License - Include license information if available\n        \n        Use HTML elements like <details> for collapsible sections to make it interactive.\n        Make the README professional, well-structured, and easy to understand.\n        \n        Project files:\n        "

/-- The f-string block `"\n\nFile: ...\nContent:\n...\n"` built for one map entry. -/
def formatBlock (file_path content : String) : String :=
  "\n\nFile: " ++ file_path ++ "\nContent:\n" ++ content ++ "\n"

/-- The `for file_path, content in file_contents.items()` loop: append each
block while the total stays within `MAX_CONTENT_LENGTH`; `break` at the first
block that would exceed it. -/
def addFiles : List (String × String) → String → String
  | [], prompt => prompt
  | (file_path, content) :: rest, prompt =>
    if prompt.length + (formatBlock file_path content).length > MAX_CONTENT_LENGTH then
      prompt
    else
      addFiles rest (prompt ++ formatBlock file_path content)

def noContentNotice : String :=
  "\n\nNo file contents were included in the prompt due to size limitations or no relevant files being found."

def skippedNotice : String :=
  "\n\n... (some file contents were skipped due to total prompt length limitations)"

/-- The quantity `sum(len(file_block) for each entry)` from the notice condition. -/
def sumBlockLens : List (String × String) → Nat
  | [] => 0
  | (file_path, content) :: rest => (formatBlock file_path content).length + sumBlockLens rest

/-- The prompt handed to `model.generate_content`: the file-appending loop
followed by the two notice branches. -/
def assemblePrompt (file_contents : List (String × String)) : String :=
  let prompt := addFiles file_contents base_prompt
  if prompt.length = base_prompt.length then
    prompt ++ noContentNotice
  else if prompt.length < sumBlockLens file_contents + base_prompt.length then
    prompt ++ skippedNotice
  else
    prompt

/-! ### Generator client -/

/-- The `except Exception` return value of `generate_readme_with_gemini`. -/
def errorDoc (e : String) : String :=
  "# Error Generating README\n\nAn error occurred while generating the README: " ++ e

/-- The return value for an empty service response. -/
def emptyResponseDoc (promptLen : Nat) : String :=
  "# Error Generating README\n\nAn error occurred while generating the README: Received empty response from Gemini API. Prompt length: " ++ toString promptLen

/-- Model of `generate_readme_with_gemini(file_contents)`.  The two effectful steps
that can raise inside the `try` are explicit inputs: `initModel` (the
`genai.GenerativeModel` constructor) and `service` (the
`model.generate_content` call, returning the response text or raising). -/
def generate_readme_with_gemini (initModel : Except String Unit)
    (service : String → Except String String)
    (file_contents : List (String × String)) : String :=
  match initModel with
  | .error e => errorDoc e
  | .ok _ =>
    let prompt := assemblePrompt file_contents
    match service prompt with
    | .error e => errorDoc e
    | .ok text => if text = "" then emptyResponseDoc prompt.length else text

/-! ### `main`: per-project dispatch

`main` is modelled as the trace of observable per-project events: a call to
the generation service (which happens only when model initialization
succeeded, since the exception otherwise skips straight to the handler), the
content handed to the Writer, and the skip message for folders with no
collected files. -/

inductive Event where
  | genCall (folder : List String) (prompt : String)
  | wroteReadme (folder : List String) (content : String)
  | skippedEmpty (folder : List String)
  deriving DecidableEq, Repr

/-- The body of `main`'s `for project_folder in project_folders` loop for one
folder, given the `read_project_files` result for it. -/
def processProject (initModel : Except String Unit)
    (service : String → Except String String)
    (folder : List String) (file_contents : List (String × String)) : List Event :=
  if file_contents.isEmpty then
    [Event.skippedEmpty folder]
  else
    (match initModel with
     | .ok _ => [Event.genCall folder (assemblePrompt file_contents)]
     | .error _ => []) ++
    [Event.wroteReadme folder (generate_readme_with_gemini initModel service file_contents)]

/-- The whole loop of `main` over the discovered folders, where `collect`
abstracts `read_project_files` as a function from folder to its collected
map. -/
def mainLoop (initModel : Except String Unit)
    (service : String → Except String String)
    (collect : List String → List (String × String))
    (folders : List (List String)) : List Event :=
  folders.flatMap fun f => processProject initModel service f (collect f)

/-- The first line of a string: everything before the first newline. -/
def firstLine (s : String) : String :=
  String.mk (s.data.takeWhile (fun c => c != '\n'))

/-- Predicate: `pat` occurs as a contiguous substring of `s`. -/
def containsStr (s pat : String) : Prop := pat.data <:+: s.data

instance (s pat : String) : Decidable (containsStr s pat) :=
  List.decidableInfix pat.data s.data

/-! ### Derived descriptions of the appending loop, used to state theorems -/

/-- How many leading map entries the appending loop accepts, starting from a
prompt of length `len`. -/
def fitCount : List (String × String) → Nat → Nat
  | [], _ => 0
  | (file_path, content) :: rest, len =>
    if len + (formatBlock file_path content).length > MAX_CONTENT_LENGTH then
      0
    else
      fitCount rest (len + (formatBlock file_path content).length) + 1

/-- The concatenation of the formatted blocks of a list of entries. -/
def blocksConcat : List (String × String) → String
  | [] => ""
  | (file_path, content) :: rest => formatBlock file_path content ++ blocksConcat rest

/-- The folder an event belongs to. -/
def eventFolder : Event → List String
  | .genCall f _ => f
  | .wroteReadme f _ => f
  | .skippedEmpty f => f

/-! ### Concrete inputs used by counterexamples and witnesses -/

/-- A string of `n` repetitions of the letter x. -/
def xStr (n : Nat) : String := String.mk (List.replicate n 'x')

/-- Two files: the first fills the prompt to exactly the cap, the second is
rejected, so the skipped notice lands on a prompt already at the cap. -/
def c1Map : List (String × String) := [("a", xStr 29155), ("b", "")]

/-- One file whose single block alone exceeds the cap: nothing is appended. -/
def c4Map : List (String × String) := [("a", xStr 30000)]

/-- Two files whose blocks sum past the cap with the first one fitting. -/
def c4WitMap : List (String × String) := [("a", xStr 29155), ("b", xStr 50)]

/-- Decoded text of exactly `MAX_FILE_SIZE` characters. -/
def atCapContent : String := xStr 100000

/-- A file of exactly 100000 bytes whose decoded text has 100000 characters. -/
def atCapFile : SrcFile :=
  { name := "big.py", size := 100000, decoded := some atCapContent,
    mimeType := none, suffix := ".py" }

/-- A file one byte over the 100000-byte cap. -/
def overCapFile : SrcFile :=
  { name := "over.py", size := 100001, decoded := some "hi",
    mimeType := none, suffix := ".py" }

/-- A small file well under both caps. -/
def smallFile : SrcFile :=
  { name := "small.py", size := 20, decoded := some "print(1)",
    mimeType := none, suffix := ".py" }

/-- A 50000-byte file whose decoded text has 40000 characters. -/
def c6File : SrcFile :=
  { name := "long.py", size := 50000, decoded := some (xStr 40000),
    mimeType := none, suffix := ".py" }

/-- A root living under a path that contains the ignored segment
"automation", with one cleanly named child. -/
def rootEx : RootDir :=
  { rootParts := ["home", "automation"], entries := [RootEntry.dir ⟨"myproject", []⟩] }

/-- A root with one cleanly named child, on a clean path. -/
def goodRoot : RootDir :=
  { rootParts := ["root"], entries := [RootEntry.dir ⟨"app", []⟩] }

/-- A child directory containing a plain file named `.stopautomation`. -/
def markedChild : ChildDir :=
  { name := "proj", entries := [(".stopautomation", EntryKind.file)] }

/-- A concrete authentication failure description. -/
def authErr : String := "401 Client Error: invalid authentication credentials"

/-! ### Helper lemmas: lengths -/

set_option maxRecDepth 8000 in
theorem base_prompt_length : base_prompt.length = 825 := by decide

theorem noContentNotice_length : noContentNotice.length = 104 := by decide

theorem skippedNotice_length : skippedNotice.length = 78 := by decide

theorem truncationMarker_length : truncationMarker.length = 38 := by decide

theorem xStr_length (n : Nat) : (xStr n).length = n := List.length_replicate n 'x'

theorem strTake_length (s : String) (n : Nat) : (strTake s n).length = min n s.length :=
  List.length_take n s.data

theorem formatBlock_length (file_path content : String) :
    (formatBlock file_path content).length = 19 + file_path.length + content.length := by
  have h1 : ("\n\nFile: " : String).length = 8 := by decide
  have h2 : ("\nContent:\n" : String).length = 10 := by decide
  have h3 : ("\n" : String).length = 1 := by decide
  simp only [formatBlock, String.length_append, h1, h2, h3]
  omega

theorem formatBlock_length_pos (file_path content : String) :
    0 < (formatBlock file_path content).length := by
  rw [formatBlock_length]; omega

theorem sumBlockLens_append (l₁ l₂ : List (String × String)) :
    sumBlockLens (l₁ ++ l₂) = sumBlockLens l₁ + sumBlockLens l₂ := by
  induction l₁ with
  | nil => simp [sumBlockLens]
  | cons hd tl ih =>
    obtain ⟨fp, c⟩ := hd
    simp only [List.cons_append, sumBlockLens]
    rw [show (tl.append l₂) = tl ++ l₂ from rfl, ih]
    omega

theorem blocksConcat_length (l : List (String × String)) :
    (blocksConcat l).length = sumBlockLens l := by
  induction l with
  | nil => rfl
  | cons hd tl ih =>
    obtain ⟨fp, c⟩ := hd
    simp only [blocksConcat, sumBlockLens, String.length_append, ih]

/-! ### Helper lemmas: the appending loop -/

theorem addFiles_length_le (l : List (String × String)) (prompt : String)
    (h : prompt.length ≤ MAX_CONTENT_LENGTH) :
    (addFiles l prompt).length ≤ MAX_CONTENT_LENGTH := by
  induction l generalizing prompt with
  | nil => simpa [addFiles] using h
  | cons hd tl ih =>
    obtain ⟨fp, c⟩ := hd
    simp only [addFiles]
    split
    · exact h
    · next hle => exact ih _ (by rw [String.length_append]; omega)

theorem addFiles_eq (l : List (String × String)) (prompt : String) :
    addFiles l prompt = prompt ++ blocksConcat (l.take (fitCount l prompt.length)) := by
  induction l generalizing prompt with
  | nil => simp [addFiles, fitCount, blocksConcat]
  | cons hd tl ih =>
    obtain ⟨fp, c⟩ := hd
    by_cases hcond : prompt.length + (formatBlock fp c).length > MAX_CONTENT_LENGTH
    · simp [addFiles, fitCount, hcond, blocksConcat]
    · simp only [addFiles, fitCount, if_neg hcond]
      rw [ih (prompt ++ formatBlock fp c), String.length_append]
      simp [blocksConcat, String.append_assoc, List.take_succ_cons]

theorem fitCount_le_length (l : List (String × String)) (len : Nat) :
    fitCount l len ≤ l.length := by
  induction l generalizing len with
  | nil => simp [fitCount]
  | cons hd tl ih =>
    obtain ⟨fp, c⟩ := hd
    simp only [fitCount]
    split
    · simp
    · simpa [List.length_cons] using ih (len + (formatBlock fp c).length)

theorem fitCount_rejected (l : List (String × String)) (len : Nat)
    (h : fitCount l len < l.length) :
    ∃ fp c rest, l.drop (fitCount l len) = (fp, c) :: rest ∧
      MAX_CONTENT_LENGTH < len + sumBlockLens (l.take (fitCount l len)) +
        (formatBlock fp c).length := by
  induction l generalizing len with
  | nil => simp [fitCount] at h
  | cons hd tl ih =>
    obtain ⟨fp, c⟩ := hd
    by_cases hcond : len + (formatBlock fp c).length > MAX_CONTENT_LENGTH
    · refine ⟨fp, c, tl, ?_, ?_⟩
      · simp [fitCount, hcond]
      · simp only [fitCount, if_pos hcond, List.take_zero, sumBlockLens]
        omega
    · have h' : fitCount tl (len + (formatBlock fp c).length) < tl.length := by
        simp only [fitCount, if_neg hcond, List.length_cons] at h
        omega
      obtain ⟨fp', c', rest, hdrop, hgt⟩ := ih (len + (formatBlock fp c).length) h'
      refine ⟨fp', c', rest, ?_, ?_⟩
      · simpa [fitCount, if_neg hcond, List.drop_succ_cons] using hdrop
      · simp only [fitCount, if_neg hcond, List.take_succ_cons, sumBlockLens]
        omega

/-! ### Helper lemmas: discovery and classification -/

theorem pathName_concat (parts : List String) (name : String) :
    pathName (parts ++ [name]) = name := by
  simp [pathName, List.getLast?_concat]

theorem should_ignore_dir_eq_false_iff (parts : List String) (name : String) :
    should_ignore (parts ++ [name]) true = false ↔
      name ∉ IGNORE_FOLDERS ∧ name ∉ IGNORE_FILES ∧
        ∀ part ∈ parts, part ∉ IGNORE_FOLDERS := by
  simp only [should_ignore, pathName_concat, Bool.true_and]
  by_cases h1 : name ∈ IGNORE_FOLDERS
  · simp [h1]
  · by_cases h2 : name ∈ IGNORE_FILES
    · simp [h1, h2]
    · simp only [h1, h2, decide_False, Bool.or_false, Bool.false_or, if_false]
      simp [List.any_append, h1, h2]

theorem considerEntry_eq_some_iff (rootParts : List String) (item : RootEntry)
    (p : List String) :
    considerEntry rootParts item = some p ↔
      ∃ c : ChildDir, item = RootEntry.dir c ∧ p = rootParts ++ [c.name] ∧
        should_ignore (rootParts ++ [c.name]) true = false ∧
        stopMarkerExists c = false := by
  cases item with
  | file n => simp [considerEntry]
  | dir c =>
    simp only [considerEntry]
    constructor
    · intro h
      by_cases hig : should_ignore (rootParts ++ [c.name]) true
      · simp [hig] at h
      · by_cases hstop : stopMarkerExists c
        · simp [hig, hstop] at h
        · simp only [Bool.not_eq_true] at hig hstop
          simp only [hig, hstop, Bool.not_false, if_true] at h
          exact ⟨c, rfl, by simpa using h.symm, hig, hstop⟩
    · rintro ⟨c', hc, hp, hig, hstop⟩
      cases hc
      simp [hig, hstop, hp]

/-! ### Helper lemmas: strings -/

theorem takeWhile_append_of_any {p : Char → Bool} :
    ∀ (l₁ l₂ : List Char), l₁.any (fun c => !p c) →
      (l₁ ++ l₂).takeWhile p = l₁.takeWhile p := by
  intro l₁ l₂ h
  induction l₁ with
  | nil => simp at h
  | cons a t ih =>
    by_cases hp : p a
    · simp only [List.any_cons, hp, Bool.not_true, Bool.false_or] at h
      simp [List.takeWhile_cons, hp, ih h]
    · simp [List.takeWhile_cons, hp]

theorem firstLine_errorDoc (e : String) :
    firstLine (errorDoc e) = "# Error Generating README" := by
  have hlit : (("# Error Generating README\n\nAn error occurred while generating the README: " : String).data).any
      (fun c => !(c != '\n')) = true := by decide
  have h := takeWhile_append_of_any
    (p := fun c => c != '\n')
    ("# Error Generating README\n\nAn error occurred while generating the README: " : String).data
    e.data hlit
  simp only [firstLine, errorDoc, String.data_append, h]
  decide

theorem containsStr_errorDoc (e : String) : containsStr (errorDoc e) e := by
  refine ⟨("# Error Generating README\n\nAn error occurred while generating the README: " : String).data, [], ?_⟩
  simp [errorDoc, String.data_append]

theorem errorDoc_heading (e : String) :
    "# Error Generating README".data <+: (errorDoc e).data := by
  have hsplit : "# Error Generating README".data ++
      ("\n\nAn error occurred while generating the README: " : String).data =
      ("# Error Generating README\n\nAn error occurred while generating the README: " : String).data := by
    decide
  refine ⟨("\n\nAn error occurred while generating the README: " : String).data ++ e.data, ?_⟩
  rw [← List.append_assoc, hsplit]
  simp [errorDoc, String.data_append]

/-! ### Helper lemmas: file collection -/

theorem processFile_spec (dirParts : List String) (f : SrcFile) (content : String)
    (hig : should_ignore (dirParts ++ [f.name]) false = false)
    (htxt : is_text_file f.mimeType f.suffix = true)
    (hdec : f.decoded = some content) :
    processFile dirParts f =
      if f.size > MAX_FILE_SIZE then
        none
      else if content.length > MAX_CONTENT_LENGTH then
        some (dirParts ++ [f.name], strTake content MAX_CONTENT_LENGTH ++ truncationMarker)
      else
        some (dirParts ++ [f.name], content) := by
  simp [processFile, hig, htxt, hdec]

/-! ### Helper lemmas: the main loop -/

theorem c4WitMap_sum : sumBlockLens c4WitMap = 29245 := by
  have h1 : (formatBlock "a" (xStr 29155)).length = 29175 := by
    rw [formatBlock_length, xStr_length]; decide
  have h2 : (formatBlock "b" (xStr 50)).length = 70 := by
    rw [formatBlock_length, xStr_length]; decide
  show sumBlockLens (("a", xStr 29155) :: [("b", xStr 50)]) = 29245
  rw [sumBlockLens, sumBlockLens, sumBlockLens, h1, h2]

set_option maxRecDepth 8000 in
theorem baseNoContent_getLast :
    (base_prompt ++ noContentNotice).data.getLast? = some '.' := by
  decide

theorem mem_processProject_folder {i : Except String Unit}
    {s : String → Except String String} {g : List String}
    {fc : List (String × String)} {e : Event}
    (h : e ∈ processProject i s g fc) : eventFolder e = g := by
  simp only [processProject] at h
  split at h
  · simp only [List.mem_singleton] at h
    subst h; rfl
  · rcases List.mem_append.mp h with h' | h'
    · cases i with
      | ok u => simp only [List.mem_singleton] at h'; subst h'; rfl
      | error _ => simp at h'
    · simp only [List.mem_singleton] at h'
      subst h'; rfl

/-! ### Claim theorems -/

/-- C6: for every collected file whose decoded text exceeds the per-file
content cap of 30000 characters, the stored content equals the first 30000
characters followed by the fixed truncation marker, and its length is the cap
plus the marker length. -/
theorem C6_per_file_truncation (dirParts : List String) (f : SrcFile) (content : String)
    (hig : should_ignore (dirParts ++ [f.name]) false = false)
    (htxt : is_text_file f.mimeType f.suffix = true)
    (hdec : f.decoded = some content)
    (hsize : f.size ≤ MAX_FILE_SIZE)
    (hlong : MAX_CONTENT_LENGTH < content.length) :
    processFile dirParts f =
      some (dirParts ++ [f.name], strTake content MAX_CONTENT_LENGTH ++ truncationMarker) ∧
    (strTake content MAX_CONTENT_LENGTH ++ truncationMarker).length =
      MAX_CONTENT_LENGTH + truncationMarker.length := by
  constructor
  · rw [processFile_spec dirParts f content hig htxt hdec]
    rw [if_neg (by omega), if_pos hlong]
  · rw [String.length_append, strTake_length]
    omega

/-- Witness for C6: a 50000-byte file whose decoded text has 40000 characters
is stored as its first 30000 characters plus the marker. -/
theorem C6_per_file_truncation_witness :
    processFile ["proj"] c6File =
      some (["proj", "long.py"],
        strTake (xStr 40000) MAX_CONTENT_LENGTH ++ truncationMarker) ∧
    (strTake (xStr 40000) MAX_CONTENT_LENGTH ++ truncationMarker).length =
      MAX_CONTENT_LENGTH + truncationMarker.length :=
  C6_per_file_truncation ["proj"] c6File (xStr 40000) (by decide) (by decide) rfl
    (by decide) (by rw [xStr_length]; decide)

/-- C7: a file whose (lowercased) extension is on the allow-list is classified
as text regardless of declared media type, and a file with neither a textual
media type nor an allow-listed extension is excluded. -/
theorem C7_classification (mimeType : Option String) (suffix : String) :
    (strLower suffix ∈ text_extensions → is_text_file mimeType suffix = true) ∧
    ((∀ m, mimeType = some m → ¬ ("text/".data <+: m.data)) →
      strLower suffix ∉ text_extensions → is_text_file mimeType suffix = false) := by
  constructor
  · intro h
    cases mimeType with
    | none => simp [is_text_file, h]
    | some m =>
      simp only [is_text_file]
      split
      · rfl
      · simp [h]
  · intro hm hs
    cases mimeType with
    | none => simp [is_text_file, hs]
    | some m =>
      have := hm m rfl
      simp [is_text_file, this, hs]

/-- Witness for C7: a `.py` file declared as `image/png` is included; a
`.bin` file declared as `application/octet-stream` is excluded. -/
theorem C7_classification_witness :
    is_text_file (some "image/png") ".py" = true ∧
    is_text_file (some "application/octet-stream") ".bin" = false :=
  ⟨(C7_classification (some "image/png") ".py").1 (by decide),
   (C7_classification (some "application/octet-stream") ".bin").2
     (by intro m hm; injection hm with h; subst h; decide) (by decide)⟩

/-- C8: for a discovered folder whose collection result is empty, the main
loop never calls the generation service for that folder and never writes a
README there; the skip message fires instead. -/
theorem C8_empty_collection_skips (initModel : Except String Unit)
    (service : String → Except String String)
    (collect : List String → List (String × String))
    (folders : List (List String)) (f : List String)
    (h : collect f = []) :
    (∀ p, Event.genCall f p ∉ mainLoop initModel service collect folders) ∧
    (∀ content, Event.wroteReadme f content ∉ mainLoop initModel service collect folders) ∧
    (f ∈ folders → Event.skippedEmpty f ∈ mainLoop initModel service collect folders) := by
  have hnot : ∀ e : Event, eventFolder e = f →
      e ∈ mainLoop initModel service collect folders → e = Event.skippedEmpty f := by
    intro e hef hmem
    simp only [mainLoop] at hmem
    obtain ⟨g, hg, hin⟩ := List.mem_flatMap.mp hmem
    have hgf : eventFolder e = g := mem_processProject_folder hin
    rw [hef] at hgf
    subst hgf
    rw [h] at hin
    simpa [processProject] using hin
  refine ⟨?_, ?_, ?_⟩
  · intro p hmem
    exact absurd (hnot (Event.genCall f p) rfl hmem) (by simp)
  · intro content hmem
    exact absurd (hnot (Event.wroteReadme f content) rfl hmem) (by simp)
  · intro hf
    simp only [mainLoop]
    refine List.mem_flatMap.mpr ⟨f, hf, ?_⟩
    rw [h]
    simp [processProject]

/-- Witness for C8: with a collector returning nothing, the folder sees no
generation call and gets the skip event. -/
theorem C8_empty_collection_skips_witness :
    (Event.genCall ["p"] "x" ∉
      mainLoop (Except.ok ()) (fun _ => Except.ok "r") (fun _ => []) [["p"]]) ∧
    Event.skippedEmpty ["p"] ∈
      mainLoop (Except.ok ()) (fun _ => Except.ok "r") (fun _ => []) [["p"]] :=
  ⟨(C8_empty_collection_skips _ _ _ _ ["p"] rfl).1 "x",
   (C8_empty_collection_skips _ _ _ _ ["p"] rfl).2.2 (by simp)⟩

/-- C9 (implicit): a child folder holding ANY entry named `.stopautomation` —
here a plain file, not a subdirectory — triggers the stop-marker test and is
suppressed from discovery. -/
theorem C9_stop_marker_any_kind (rootParts : List String) (c : ChildDir)
    (h : (STOP_AUTOMATION_FOLDER, EntryKind.file) ∈ c.entries) :
    stopMarkerExists c = true ∧ considerEntry rootParts (RootEntry.dir c) = none := by
  have hex : stopMarkerExists c = true := by
    simp only [stopMarkerExists, List.any_eq_true]
    exact ⟨_, h, by simp⟩
  refine ⟨hex, ?_⟩
  simp [considerEntry, hex]

/-- Witness for C9: a child with a plain file `.stopautomation` contributes
nothing to discovery. -/
theorem C9_stop_marker_any_kind_witness :
    stopMarkerExists markedChild = true ∧
    considerEntry [] (RootEntry.dir markedChild) = none :=
  C9_stop_marker_any_kind [] markedChild (by decide)

/-- C10 (implicit): the generator client is total — it is a function into
`String`, and each failure of model initialization or of the service call is
converted into the error document, which always begins with the heading
`# Error Generating README`. -/
theorem C10_client_total (initModel : Except String Unit)
    (service : String → Except String String)
    (file_contents : List (String × String)) :
    (∀ e, initModel = Except.error e →
      generate_readme_with_gemini initModel service file_contents = errorDoc e) ∧
    (∀ e, initModel = Except.ok () →
      service (assemblePrompt file_contents) = Except.error e →
      generate_readme_with_gemini initModel service file_contents = errorDoc e) ∧
    (∀ e, "# Error Generating README".data <+: (errorDoc e).data) := by
  refine ⟨?_, ?_, fun e => errorDoc_heading e⟩
  · intro e he; subst he; rfl
  · intro e h1 h2
    subst h1
    simp [generate_readme_with_gemini, h2]

/-- Witness for C10: an initialization failure and a service failure both
come back as the error document. -/
theorem C10_client_total_witness :
    generate_readme_with_gemini (Except.error "boom") (fun _ => Except.ok "r") [] =
      errorDoc "boom" ∧
    generate_readme_with_gemini (Except.ok ()) (fun _ => Except.error "quota") [] =
      errorDoc "quota" :=
  ⟨(C10_client_total _ _ _).1 "boom" rfl, (C10_client_total _ _ _).2.1 "quota" rfl rfl⟩

/-- C1 counterexample: a map whose first block fills the prompt to exactly the
30000-character cap and whose second block is rejected makes the loop append
the skipped-files notice unconditionally, so the submitted prompt has 30078
characters — the claimed bound fails once the notice is appended. -/
theorem C1_counterexample : MAX_CONTENT_LENGTH < (assemblePrompt c1Map).length := by
  have hb1 : (formatBlock "a" (xStr 29155)).length = 29175 := by
    rw [formatBlock_length, xStr_length]; decide
  have hb2 : (formatBlock "b" "").length = 20 := by
    rw [formatBlock_length]; decide
  have hlen1 : (base_prompt ++ formatBlock "a" (xStr 29155)).length = 30000 := by
    rw [String.length_append, base_prompt_length, hb1]
  have hc1 : ¬ (base_prompt.length + (formatBlock "a" (xStr 29155)).length >
      MAX_CONTENT_LENGTH) := by
    rw [base_prompt_length, hb1]; decide
  have hc2 : (base_prompt ++ formatBlock "a" (xStr 29155)).length +
      (formatBlock "b" "").length > MAX_CONTENT_LENGTH := by
    rw [hlen1, hb2]; decide
  have haf : addFiles c1Map base_prompt = base_prompt ++ formatBlock "a" (xStr 29155) := by
    simp only [c1Map, addFiles, if_neg hc1, if_pos hc2]
  have hsum : sumBlockLens c1Map = 29195 := by
    show sumBlockLens (("a", xStr 29155) :: [("b", "")]) = 29195
    rw [sumBlockLens, sumBlockLens, sumBlockLens, hb1, hb2]
  have hne : ¬ ((base_prompt ++ formatBlock "a" (xStr 29155)).length =
      base_prompt.length) := by
    rw [hlen1, base_prompt_length]; decide
  have hlt : (base_prompt ++ formatBlock "a" (xStr 29155)).length <
      sumBlockLens c1Map + base_prompt.length := by
    rw [hlen1, hsum, base_prompt_length]; decide
  simp only [assemblePrompt]
  rw [haf, if_neg hne, if_pos hlt, String.length_append, hlen1, skippedNotice_length]
  decide

/-- C1 amended: the prompt respects the 30000-character cap up to the end of
the file-appending loop, and the prompt actually submitted can exceed the cap
only by the appended notice, i.e. by at most the 78 characters of the
skipped-files notice. -/
theorem C1_amended (file_contents : List (String × String)) :
    (addFiles file_contents base_prompt).length ≤ MAX_CONTENT_LENGTH ∧
    (assemblePrompt file_contents).length ≤ MAX_CONTENT_LENGTH + skippedNotice.length := by
  have hb : base_prompt.length ≤ MAX_CONTENT_LENGTH := by
    rw [base_prompt_length]; decide
  have h1 := addFiles_length_le file_contents base_prompt hb
  refine ⟨h1, ?_⟩
  simp only [assemblePrompt]
  split
  · next heq =>
    rw [String.length_append, heq, base_prompt_length, noContentNotice_length]
    decide
  · split
    · rw [String.length_append]
      omega
    · omega

/-- C2 counterexample: a file one byte over the 100000-byte cap is excluded
(not included truncated), and a file of exactly 100000 bytes is included but
with its content truncated at the separate 30000-character content cap, hence
not unmodified. -/
theorem C2_counterexample :
    processFile ["proj"] overCapFile = none ∧
    processFile ["proj"] atCapFile =
      some (["proj", "big.py"],
        strTake atCapContent MAX_CONTENT_LENGTH ++ truncationMarker) ∧
    strTake atCapContent MAX_CONTENT_LENGTH ++ truncationMarker ≠ atCapContent := by
  have hlen : atCapContent.length = 100000 := xStr_length 100000
  refine ⟨by decide, ?_, ?_⟩
  · rw [processFile_spec ["proj"] atCapFile atCapContent (by decide) (by decide) rfl]
    rw [if_neg (show ¬ (atCapFile.size > MAX_FILE_SIZE) by decide),
      if_pos (show atCapContent.length > MAX_CONTENT_LENGTH by rw [hlen]; decide)]
    rfl
  · intro heq
    have hL := congrArg String.length heq
    rw [String.length_append, strTake_length, truncationMarker_length, hlen] at hL
    have hmin : min MAX_CONTENT_LENGTH 100000 = 30000 := by decide
    rw [hmin] at hL
    exact absurd hL (by decide)

/-- C2 amended: a file strictly over the 100000-byte size cap is excluded; a
file at or under the cap (in particular, one of exactly 100000 bytes) is
included, with content kept verbatim when its decoded length is within the
30000-character content cap and truncated to the content cap plus the marker
otherwise. -/
theorem C2_amended (dirParts : List String) (f : SrcFile) (content : String)
    (hig : should_ignore (dirParts ++ [f.name]) false = false)
    (htxt : is_text_file f.mimeType f.suffix = true)
    (hdec : f.decoded = some content) :
    (MAX_FILE_SIZE < f.size → processFile dirParts f = none) ∧
    (f.size ≤ MAX_FILE_SIZE → content.length ≤ MAX_CONTENT_LENGTH →
      processFile dirParts f = some (dirParts ++ [f.name], content)) ∧
    (f.size ≤ MAX_FILE_SIZE → MAX_CONTENT_LENGTH < content.length →
      processFile dirParts f =
        some (dirParts ++ [f.name],
          strTake content MAX_CONTENT_LENGTH ++ truncationMarker)) := by
  rw [processFile_spec dirParts f content hig htxt hdec]
  refine ⟨?_, ?_, ?_⟩
  · intro h
    rw [if_pos h]
  · intro h1 h2
    rw [if_neg (by omega), if_neg (by omega)]
  · intro h1 h2
    rw [if_neg (by omega), if_pos h2]

/-- Witness for C2 amended: the over-cap file is excluded and a small file is
stored verbatim. -/
theorem C2_amended_witness :
    processFile ["proj"] overCapFile = none ∧
    processFile ["proj"] smallFile = some (["proj", "small.py"], "print(1)") :=
  ⟨(C2_amended ["proj"] overCapFile "hi" (by decide) (by decide) rfl).1 (by decide),
   (C2_amended ["proj"] smallFile "print(1)" (by decide) (by decide) rfl).2.1
     (by decide) (by decide)⟩

/-- C3 counterexample: on a service failure the produced README is the error
document, whose first line is the fixed heading `# Error Generating README` —
the failure description does NOT occur in that first line (it sits in the
body), contradicting the claim's first-line wording. -/
theorem C3_counterexample :
    generate_readme_with_gemini (Except.ok ()) (fun _ => Except.error authErr)
      [("app.py", "print(1)")] = errorDoc authErr ∧
    firstLine (errorDoc authErr) = "# Error Generating README" ∧
    ¬ containsStr (firstLine (errorDoc authErr)) authErr := by
  refine ⟨rfl, firstLine_errorDoc authErr, ?_⟩
  rw [firstLine_errorDoc]
  decide

/-- C3 amended: when the service raises with description `e` for a folder, the
README content produced for that folder is the error document, a Markdown
document whose first line is the error heading and whose body contains `e`,
and the main loop goes on to process the remaining folders. -/
theorem C3_amended (service : String → Except String String)
    (collect : List String → List (String × String))
    (folder : List String) (rest : List (List String)) (e : String)
    (hne : collect folder ≠ [])
    (hsvc : service (assemblePrompt (collect folder)) = Except.error e) :
    mainLoop (Except.ok ()) service collect (folder :: rest) =
      Event.genCall folder (assemblePrompt (collect folder)) ::
        Event.wroteReadme folder (errorDoc e) ::
          mainLoop (Except.ok ()) service collect rest ∧
    firstLine (errorDoc e) = "# Error Generating README" ∧
    containsStr (errorDoc e) e := by
  refine ⟨?_, firstLine_errorDoc e, containsStr_errorDoc e⟩
  have hgen : generate_readme_with_gemini (Except.ok ()) service (collect folder) =
      errorDoc e := by
    simp [generate_readme_with_gemini, hsvc]
  have hempty : (collect folder).isEmpty = false := by
    cases hcf : collect folder with
    | nil => exact absurd hcf hne
    | cons a t => rfl
  simp only [mainLoop, List.flatMap_cons]
  simp [processProject, hempty, hgen]

/-- Witness for C3 amended: a concrete two-folder batch where the first call
fails with an authentication error. -/
theorem C3_amended_witness :
    mainLoop (Except.ok ()) (fun _ => Except.error authErr)
        (fun _ => [("app.py", "print(1)")]) (["p1"] :: [["p2"]]) =
      Event.genCall ["p1"] (assemblePrompt [("app.py", "print(1)")]) ::
        Event.wroteReadme ["p1"] (errorDoc authErr) ::
          mainLoop (Except.ok ()) (fun _ => Except.error authErr)
            (fun _ => [("app.py", "print(1)")]) [["p2"]] ∧
    firstLine (errorDoc authErr) = "# Error Generating README" ∧
    containsStr (errorDoc authErr) authErr :=
  C3_amended _ _ ["p1"] [["p2"]] authErr (by simp) rfl

/-- C4 counterexample: a map whose single formatted block alone exceeds the
cap leaves the prompt untouched and gets the NO-CONTENT notice, not the
claimed skipped-files notice. -/
theorem C4_counterexample :
    MAX_CONTENT_LENGTH < base_prompt.length + sumBlockLens c4Map ∧
    assemblePrompt c4Map = base_prompt ++ noContentNotice ∧
    ∀ s : String, base_prompt ++ noContentNotice ≠ s ++ skippedNotice := by
  have hb : (formatBlock "a" (xStr 30000)).length = 30020 := by
    rw [formatBlock_length, xStr_length]; decide
  have hsum : sumBlockLens c4Map = 30020 := by
    show sumBlockLens [("a", xStr 30000)] = 30020
    rw [sumBlockLens, sumBlockLens, hb]
  refine ⟨?_, ?_, ?_⟩
  · rw [base_prompt_length, hsum]; decide
  · have hc : base_prompt.length + (formatBlock "a" (xStr 30000)).length >
        MAX_CONTENT_LENGTH := by
      rw [base_prompt_length, hb]; decide
    have haf : addFiles c4Map base_prompt = base_prompt := by
      simp only [c4Map, addFiles, if_pos hc]
    simp only [assemblePrompt]
    rw [haf, if_pos rfl]
  · intro s heq
    have h2 : (s ++ skippedNotice).data.getLast? = some ')' := by
      rw [String.data_append, List.getLast?_append]
      have hsk : skippedNotice.data.getLast? = some ')' := by decide
      rw [hsk]
      rfl
    have h1 := baseNoContent_getLast
    rw [heq, h2] at h1
    exact absurd h1 (by decide)

/-- C4 amended: whenever the formatted blocks cannot all fit under the cap,
the loop accepts exactly a strict prefix of the entries in iteration order,
the first block whose addition would exceed the cap is rejected and iteration
stops there, and the final prompt carries the skipped-files notice when the
prefix is nonempty — but the no-content notice when not even the first block
fit. -/
theorem C4_amended (fc : List (String × String))
    (h : MAX_CONTENT_LENGTH < base_prompt.length + sumBlockLens fc) :
    fitCount fc base_prompt.length < fc.length ∧
    addFiles fc base_prompt =
      base_prompt ++ blocksConcat (fc.take (fitCount fc base_prompt.length)) ∧
    (∃ fp c rest, fc.drop (fitCount fc base_prompt.length) = (fp, c) :: rest ∧
      MAX_CONTENT_LENGTH < base_prompt.length +
        sumBlockLens (fc.take (fitCount fc base_prompt.length)) +
        (formatBlock fp c).length) ∧
    assemblePrompt fc =
      (base_prompt ++ blocksConcat (fc.take (fitCount fc base_prompt.length))) ++
        (if fitCount fc base_prompt.length = 0 then noContentNotice else skippedNotice) := by
  have hchar := addFiles_eq fc base_prompt
  have hlen : (addFiles fc base_prompt).length =
      base_prompt.length + sumBlockLens (fc.take (fitCount fc base_prompt.length)) := by
    rw [hchar, String.length_append, blocksConcat_length]
  have hbound := addFiles_length_le fc base_prompt (by rw [base_prompt_length]; decide)
  have hklt : fitCount fc base_prompt.length < fc.length := by
    rcases Nat.lt_or_ge (fitCount fc base_prompt.length) fc.length with hlt | hge
    · exact hlt
    · exfalso
      have htake : fc.take (fitCount fc base_prompt.length) = fc :=
        List.take_of_length_le hge
      rw [htake] at hlen
      omega
  have hrej := fitCount_rejected fc base_prompt.length hklt
  refine ⟨hklt, hchar, hrej, ?_⟩
  have hsplit : sumBlockLens fc =
      sumBlockLens (fc.take (fitCount fc base_prompt.length)) +
        sumBlockLens (fc.drop (fitCount fc base_prompt.length)) := by
    rw [← sumBlockLens_append, List.take_append_drop]
  obtain ⟨fp, c, rest, hdrop, _⟩ := hrej
  have hdropPos : 0 < sumBlockLens (fc.drop (fitCount fc base_prompt.length)) := by
    rw [hdrop]
    simp only [sumBlockLens]
    have := formatBlock_length_pos fp c
    omega
  by_cases hk0 : fitCount fc base_prompt.length = 0
  · simp only [assemblePrompt]
    rw [if_pos (show (addFiles fc base_prompt).length = base_prompt.length by
      rw [hlen, hk0]
      simp [sumBlockLens])]
    rw [hchar, if_pos hk0]
  · have htakePos : 0 < sumBlockLens (fc.take (fitCount fc base_prompt.length)) := by
      cases fc with
      | nil => simp [fitCount] at hklt
      | cons hd tl =>
        obtain ⟨fp', c'⟩ := hd
        obtain ⟨j, hj⟩ : ∃ j, fitCount ((fp', c') :: tl) base_prompt.length = j + 1 :=
          ⟨_, (Nat.succ_pred_eq_of_pos (Nat.pos_of_ne_zero hk0)).symm⟩
        rw [hj, List.take_succ_cons]
        simp only [sumBlockLens]
        have := formatBlock_length_pos fp' c'
        omega
    simp only [assemblePrompt]
    rw [if_neg (show ¬ (addFiles fc base_prompt).length = base_prompt.length by
      rw [hlen]; omega)]
    rw [if_pos (show (addFiles fc base_prompt).length <
        sumBlockLens fc + base_prompt.length by
      rw [hlen, hsplit]; omega)]
    rw [hchar, if_neg hk0]

/-- Witness for C4 amended: two files whose blocks together pass the cap with
the first one fitting exactly. -/
theorem C4_amended_witness :
    fitCount c4WitMap base_prompt.length < c4WitMap.length ∧
    addFiles c4WitMap base_prompt =
      base_prompt ++ blocksConcat (c4WitMap.take (fitCount c4WitMap base_prompt.length)) ∧
    (∃ fp c rest, c4WitMap.drop (fitCount c4WitMap base_prompt.length) = (fp, c) :: rest ∧
      MAX_CONTENT_LENGTH < base_prompt.length +
        sumBlockLens (c4WitMap.take (fitCount c4WitMap base_prompt.length)) +
        (formatBlock fp c).length) ∧
    assemblePrompt c4WitMap =
      (base_prompt ++
          blocksConcat (c4WitMap.take (fitCount c4WitMap base_prompt.length))) ++
        (if fitCount c4WitMap base_prompt.length = 0 then noContentNotice
         else skippedNotice) :=
  C4_amended c4WitMap (by rw [base_prompt_length, c4WitMap_sum]; decide)

/-- C5 counterexample: a root whose own path contains the ignored segment
"automation" discovers nothing, although its child has a clean name and no
stop marker — so the result is not exactly the named-filtered children. -/
theorem C5_counterexample :
    find_project_folders rootEx = [] ∧
    "myproject" ∉ IGNORE_FOLDERS ∧ "myproject" ∉ IGNORE_FILES ∧
    stopMarkerExists ⟨"myproject", []⟩ = false := by
  refine ⟨by decide, by decide, by decide, rfl⟩

/-- C5 amended: discovery returns exactly the child directories whose name is
on neither ignore list, none of whose path segments (including the root's own
segments) is an ignored folder name, and which hold no `.stopautomation`
entry; in particular a child named in the folder ignore list never appears. -/
theorem C5_amended :
    (∀ (root : RootDir) (p : List String),
      p ∈ find_project_folders root ↔
        ∃ c : ChildDir, RootEntry.dir c ∈ root.entries ∧
          p = root.rootParts ++ [c.name] ∧
          c.name ∉ IGNORE_FOLDERS ∧ c.name ∉ IGNORE_FILES ∧
          (∀ part ∈ root.rootParts, part ∉ IGNORE_FOLDERS) ∧
          stopMarkerExists c = false) ∧
    (∀ (root : RootDir) (p : List String),
      p ∈ find_project_folders root → pathName p ∉ IGNORE_FOLDERS) := by
  have key : ∀ (root : RootDir) (p : List String),
      p ∈ find_project_folders root ↔
        ∃ c : ChildDir, RootEntry.dir c ∈ root.entries ∧
          p = root.rootParts ++ [c.name] ∧
          should_ignore (root.rootParts ++ [c.name]) true = false ∧
          stopMarkerExists c = false := by
    intro root p
    simp only [find_project_folders, List.mem_filterMap]
    constructor
    · rintro ⟨item, hitem, hsome⟩
      obtain ⟨c, hc, hp, hig, hstop⟩ := (considerEntry_eq_some_iff _ _ _).mp hsome
      exact ⟨c, hc ▸ hitem, hp, hig, hstop⟩
    · rintro ⟨c, hc, hp, hig, hstop⟩
      exact ⟨RootEntry.dir c, hc,
        (considerEntry_eq_some_iff _ _ _).mpr ⟨c, rfl, hp, hig, hstop⟩⟩
  constructor
  · intro root p
    rw [key root p]
    constructor
    · rintro ⟨c, hc, hp, hig, hstop⟩
      obtain ⟨h1, h2, h3⟩ := (should_ignore_dir_eq_false_iff _ _).mp hig
      exact ⟨c, hc, hp, h1, h2, h3, hstop⟩
    · rintro ⟨c, hc, hp, h1, h2, h3, hstop⟩
      exact ⟨c, hc, hp, (should_ignore_dir_eq_false_iff _ _).mpr ⟨h1, h2, h3⟩, hstop⟩
  · intro root p hp
    obtain ⟨c, _, hpe, hig, _⟩ := (key root p).mp hp
    subst hpe
    rw [pathName_concat]
    exact ((should_ignore_dir_eq_false_iff _ _).mp hig).1

/-- Witness for C5 amended: a discovered folder's name is not an ignored
folder name. -/
theorem C5_amended_witness : pathName ["root", "app"] ∉ IGNORE_FOLDERS :=
  C5_amended.2 goodRoot ["root", "app"] (by decide)

end ReadmeGen
